import Mathlib

/-!
Shallow embedding of the booking-and-payment-verification flow of the
storage-renting-system backend (`src/server/api/services/booking.service.js`).

The Firestore document store is modelled as an explicit association-list
state (`DB`) threaded through the operations.  Node's
`crypto.createHmac("sha256", secret).update(msg).digest("hex")` is an
external library, modelled as an abstract function
`hmacHex : String → String → String` (secret, message ↦ hex digest);
likewise the Razorpay gateway's `orders.create` is an abstract function
`gateway : OrderRequest → Except JsError Order`.  JavaScript `new Date()`
clock reads become explicit integer (milliseconds) parameters, one per
read, and `nanoid()` / Firestore-generated document ids become explicit
string parameters.  A JS value that may be `undefined` is an `Option`.
-/

/-- Storage-facility document as read by the booking flow
(`storage.data()` field accesses in `addBookingToFirebase`).  `images` is
`Option` because the document may lack the field. -/
structure StorageData where
  name : String
  images : Option (List String)
  address : String
  phone : String
deriving Repr, DecidableEq

/-- Booking document as written by `addBookingToFirebase` and updated by
`updateBookingPaymentStatus`.  `image` is `Option String`: JS `undefined`
(an empty `images` array indexed at 0) is `none`.  `paidAt` is absent
(`none`) until the payment-status update sets it. -/
structure Booking where
  storageId : String
  userId : String
  userName : String
  storageName : String
  image : Option String
  boxes : Int
  amount : Int
  address : String
  phone : String
  storageType : String
  orderId : String
  fromDate : Int
  toDate : Int
  paid : Bool
  paidAt : Option Int
deriving Repr, DecidableEq

/-- The document store: the `bookings` and `storages` collections, as
association lists from document id to document. -/
structure DB where
  bookings : List (String × Booking)
  storages : List (String × StorageData)
deriving Repr, DecidableEq

/-- Errors a request can surface: the ad-hoc `{status, message}` objects
thrown by the service, a JS runtime `TypeError`, and errors coming back
from the payment gateway. -/
inductive JsError where
  | httpError (status : Int) (message : String)
  | typeError (message : String)
  | gatewayError (message : String)
deriving Repr, DecidableEq

/-- Request body passed to `razorpayInstance.orders.create`. -/
structure OrderRequest where
  amount : String
  currency : String
  receipt : String
deriving Repr, DecidableEq

/-- Razorpay order as used by the flow (only `id` is read). -/
structure Order where
  id : String
deriving Repr, DecidableEq

/-- Retrieve a booking document from the store
(`bookingCollectionRef.doc(bookingId).get()`); `none` is a snapshot with
`exists == false`. -/
def getBookingDocument (db : DB) (bookingId : String) : Option Booking :=
  db.bookings.lookup bookingId

/-- Validate the booking snapshot: throw `{status: 402, message: "Order
not found, please try again"}` if it does not exist.  Modelled as
returning the booking on success. -/
def validateBooking (booking : Option Booking) : Except JsError Booking :=
  match booking with
  | none => .error (.httpError 402 "Order not found, please try again")
  | some b => .ok b

/-- Generate the payment order id: `razorpayOrderId + "|" +
razorpayPaymentId`. -/
def getPaymentOrderId (razorpayOrderId razorpayPaymentId : String) : String :=
  razorpayOrderId ++ "|" ++ razorpayPaymentId

/-- Verify the payment signature: compare the hex HMAC-SHA256 of
`paymentOrderId` under the server secret with the caller-supplied
signature; throw `{status: 402, message: "Payment verification failed"}`
on mismatch.  The `booking` parameter is present in the source and, as in
the source, unused. -/
def verifyPayment (hmacHex : String → String → String) (razorpayKeySecret : String)
    (booking : Booking) (paymentOrderId razorpaySignature : String) : Except JsError Unit :=
  let expectedSignature := hmacHex razorpayKeySecret paymentOrderId
  if expectedSignature ≠ razorpaySignature then
    .error (.httpError 402 "Payment verification failed")
  else
    .ok ()

/-- Update every entry of an association list whose key equals `id`
(Firestore's `booking.ref.update`, where keys are unique). -/
def updateDoc (l : List (String × Booking)) (id : String) (f : Booking → Booking) :
    List (String × Booking) :=
  l.map (fun p => (p.1, if p.1 = id then f p.2 else p.2))

/-- Update the booking payment status: `booking.ref.update({paid: true,
paidAt: new Date()})`.  `now` is the `new Date()` clock read. -/
def updateBookingPaymentStatus (db : DB) (bookingId : String) (now : Int) : DB :=
  let f := fun b => { b with paid := true, paidAt := some now : Booking }
  { db with bookings := updateDoc db.bookings bookingId f }

/-- Verify a payment for a booking (`verifyBooking`): fetch the booking,
validate existence, build the payment order id, check the signature, then
mark the booking paid.  Returns the store state after the call together
with the outcome; on a thrown error the state is the input state. -/
def verifyBooking (hmacHex : String → String → String) (razorpayKeySecret : String)
    (db : DB) (razorpayPaymentId razorpayOrderId razorpaySignature bookingId : String)
    (now : Int) : DB × Except JsError String :=
  match validateBooking (getBookingDocument db bookingId) with
  | .error e => (db, .error e)
  | .ok booking =>
    let paymentOrderId := getPaymentOrderId razorpayOrderId razorpayPaymentId
    match verifyPayment hmacHex razorpayKeySecret booking paymentOrderId razorpaySignature with
    | .error e => (db, .error e)
    | .ok _ => (updateBookingPaymentStatus db bookingId now, .ok "Payment successful")

/-- Retrieve storage information
(`storageCollectionRef.doc(storageId).get()`); the returned snapshot's
`.data()` is `none` when the document does not exist.  No existence check
is performed here. -/
def getStorageInfo (db : DB) (storageId : String) : Option StorageData :=
  db.storages.lookup storageId

/-- Create a Razorpay order: call the gateway with `{amount: (amount *
100).toString(), currency: "INR", receipt: nanoid()}`; the `receipt`
idempotency token is the explicit `receipt` parameter. -/
def createRazorpayOrder (gateway : OrderRequest → Except JsError Order)
    (amount : Int) (receipt : String) : Except JsError Order :=
  gateway { amount := toString (amount * 100), currency := "INR", receipt := receipt }

/-- The booking document literal passed to `bookingCollectionRef.add` by
`addBookingToFirebase` (the object literal of the source, named so that
theorems can refer to the persisted record).  `image` mirrors the JS
ternary `storage.data().images ? storage.data().images[0] : ""`: an array
(even an empty one) is truthy, and indexing an empty array at 0 yields
`undefined` (`List.head?` of `[]`, i.e. `none`); a missing field is falsy
and yields `""`.  `toDate` adds `duration * 7 * 24 * 60 * 60 * 1000`
milliseconds to the second clock read. -/
def mkBooking (userId storageId userName : String) (s : StorageData)
    (boxes amount : Int) (storageType : String) (order : Order)
    (duration : Int) (now1 now2 : Int) : Booking where
  storageId := storageId
  userId := userId
  userName := userName
  storageName := s.name
  image := match s.images with
    | some imgs => imgs.head?
    | none => some ""
  boxes := boxes
  amount := amount
  address := s.address
  phone := s.phone
  storageType := storageType
  orderId := order.id
  fromDate := now1
  toDate := now2 + duration * 7 * 24 * 60 * 60 * 1000
  paid := false
  paidAt := none

/-- Add a new booking to the store (`bookingCollectionRef.add`).  When the
storage snapshot has no data (the facility does not exist),
`storage.data().name` raises a `TypeError`.  `now1` and `now2` are the two
`new Date()` clock reads (`fromDate`, then the one inside the `toDate`
computation); `freshId` is the store-generated document id. -/
def addBookingToFirebase (db : DB) (userId storageId userName : String)
    (storage : Option StorageData) (boxes amount : Int) (storageType : String)
    (order : Order) (duration : Int) (freshId : String) (now1 now2 : Int) :
    DB × Except JsError String :=
  match storage with
  | none => (db, .error (.typeError "Cannot read properties of undefined"))
  | some s =>
    let booking := mkBooking userId storageId userName s boxes amount storageType
      order duration now1 now2
    ({ db with bookings := db.bookings ++ [(freshId, booking)] }, .ok freshId)

/-- Create a booking (`createBooking`): look up the facility, create the
gateway order, persist the unpaid booking.  Returns the store state after
the call and either `{orderId, bookingId}` or the propagated error. -/
def createBooking (gateway : OrderRequest → Except JsError Order) (db : DB)
    (userId storageId : String) (boxes amount : Int) (storageType : String)
    (duration : Int) (userName : String) (receipt freshId : String)
    (now1 now2 : Int) : DB × Except JsError (String × String) :=
  let storage := getStorageInfo db storageId
  match createRazorpayOrder gateway amount receipt with
  | .error e => (db, .error e)
  | .ok order =>
    match addBookingToFirebase db userId storageId userName storage boxes amount
        storageType order duration freshId now1 now2 with
    | (dbAfter, .error e) => (dbAfter, .error e)
    | (dbAfter, .ok bookingId) => (dbAfter, .ok (order.id, bookingId))

/-- Sample storage facility used by witnesses. -/
def sampleStorage : StorageData where
  name := "Acme Storage"
  images := some ["img0.png", "img1.png"]
  address := "12 Main Road"
  phone := "9999999999"

/-- Sample unpaid booking used by witnesses. -/
def sampleBooking : Booking where
  storageId := "st1"
  userId := "u1"
  userName := "Asha"
  storageName := "Acme Storage"
  image := some "img0.png"
  boxes := 2
  amount := 500
  address := "12 Main Road"
  phone := "9999999999"
  storageType := "cold"
  orderId := "order_abc"
  fromDate := 0
  toDate := 604800000
  paid := false
  paidAt := none

/-- Sample store state: one unpaid booking and one storage facility. -/
def sampleDB : DB where
  bookings := [("bk1", sampleBooking)]
  storages := [("st1", sampleStorage)]

/-- Empty store state. -/
def emptyDB : DB where
  bookings := []
  storages := []

/-- A concrete stand-in for the hex HMAC-SHA256 function, used only to
instantiate witnesses (the theorems quantify over every such function). -/
def sampleHmac : String → String → String :=
  fun secret msg => "mac:" ++ secret ++ ":" ++ msg

/-- A gateway that accepts every order request. -/
def sampleGateway : OrderRequest → Except JsError Order :=
  fun _ => .ok { id := "order_new" }

/-- A gateway that rejects every order request. -/
def failingGateway : OrderRequest → Except JsError Order :=
  fun _ => .error (.gatewayError "gateway down")

/-- A gateway that reports back the amount field of the request it was
given, used to observe what `createBooking` sends. -/
def echoAmountGateway : OrderRequest → Except JsError Order :=
  fun r => .error (.gatewayError r.amount)

/-- A gateway that reports back every field of the request it was given. -/
def echoRequestGateway : OrderRequest → Except JsError Order :=
  fun r => .error (.gatewayError (r.amount ++ "|" ++ r.currency ++ "|" ++ r.receipt))

/-- The operations of the booking flow, with the external inputs each call
consumes (gateway receipt token, fresh document id, clock reads). -/
inductive Ev where
  | createEv (userId storageId : String) (boxes amount : Int)
      (storageType : String) (duration : Int)
      (userName receipt freshId : String) (now1 now2 : Int)
  | verifyEv (razorpayPaymentId razorpayOrderId razorpaySignature
      bookingId : String) (now : Int)
deriving DecidableEq

/-- One request of the flow executed against the store: either a
`createBooking` call or a `verifyBooking` call, each taking the store to
the state the call returns (failed calls leave it unchanged). -/
inductive Step (hmacHex : String → String → String) (secret : String)
    (gateway : OrderRequest → Except JsError Order) : Ev → DB → DB → Prop where
  | createStep (userId storageId : String) (boxes amount : Int)
      (storageType : String) (duration : Int)
      (userName receipt freshId : String) (now1 now2 : Int) (db : DB) :
      Step hmacHex secret gateway
        (.createEv userId storageId boxes amount storageType duration userName
          receipt freshId now1 now2)
        db
        (createBooking gateway db userId storageId boxes amount storageType
          duration userName receipt freshId now1 now2).1
  | verifyStep (pid oid sig bid : String) (now : Int) (db : DB) :
      Step hmacHex secret gateway (.verifyEv pid oid sig bid now) db
        (verifyBooking hmacHex secret db pid oid sig bid now).1

/-- Lookup over an appended association list tries the first list, then
the second. -/
theorem lookup_append {α β : Type} [BEq α] (l1 l2 : List (α × β)) (a : α) :
    (l1 ++ l2).lookup a =
      match l1.lookup a with
      | some b => some b
      | none => l2.lookup a := by
  induction l1 with
  | nil => simp [List.lookup]
  | cons p l ih =>
    obtain ⟨k, v⟩ := p
    cases hk : a == k <;> simp [List.lookup, hk, ih]

/-- Lookup after `updateDoc`: the entry found at the updated key has the
update applied; every other key reads as before. -/
theorem lookup_updateDoc (l : List (String × Booking)) (id : String)
    (f : Booking → Booking) (j : String) :
    (updateDoc l id f).lookup j =
      if j = id then (l.lookup j).map f else l.lookup j := by
  induction l with
  | nil => simp [updateDoc, List.lookup]
  | cons p l ih =>
    obtain ⟨k, v⟩ := p
    simp only [updateDoc] at ih
    by_cases hk : k = id
    · subst hk
      by_cases hjk : j = k
      · subst hjk
        simp [updateDoc, List.lookup, ih]
      · have hb : (j == k) = false := beq_eq_false_iff_ne.mpr hjk
        simp [updateDoc, List.lookup, ih, hjk, hb]
    · by_cases hjk : j = k
      · subst hjk
        have hb : (j == id) = false := beq_eq_false_iff_ne.mpr hk
        simp [updateDoc, List.lookup, ih, hk]
      · have hb : (j == k) = false := beq_eq_false_iff_ne.mpr hjk
        simp [updateDoc, List.lookup, ih, hk, hb]

/-- Success path of `verifyBooking`: when the booking exists and the
supplied signature equals the expected HMAC digest, the call marks the
booking paid and reports success. -/
theorem verifyBooking_ok_state (hmacHex : String → String → String)
    (secret : String) (db : DB) (pid oid sig bid : String) (now : Int)
    (b : Booking) (hb : getBookingDocument db bid = some b)
    (hsig : hmacHex secret (getPaymentOrderId oid pid) = sig) :
    verifyBooking hmacHex secret db pid oid sig bid now
      = (updateBookingPaymentStatus db bid now, .ok "Payment successful") := by
  simp [verifyBooking, validateBooking, hb, verifyPayment, hsig]

/-- Reading back the updated booking after `updateBookingPaymentStatus`. -/
theorem lookup_updateBookingPaymentStatus (db : DB) (bid : String) (now : Int)
    (b : Booking) (hb : db.bookings.lookup bid = some b) :
    (updateBookingPaymentStatus db bid now).bookings.lookup bid
      = some { b with paid := true, paidAt := some now } := by
  simp [updateBookingPaymentStatus, lookup_updateDoc, hb]

/-- Success path of `createBooking`: when the facility exists and the
gateway accepts the order request, the unpaid booking is appended to the
store and `{orderId, bookingId}` is returned. -/
theorem createBooking_ok_state (gateway : OrderRequest → Except JsError Order)
    (db : DB) (userId storageId : String) (boxes amount : Int)
    (storageType : String) (duration : Int) (userName receipt freshId : String)
    (now1 now2 : Int) (s : StorageData) (order : Order)
    (hs : getStorageInfo db storageId = some s)
    (hg : createRazorpayOrder gateway amount receipt = .ok order) :
    (createBooking gateway db userId storageId boxes amount storageType duration
        userName receipt freshId now1 now2).1.bookings
      = db.bookings ++ [(freshId, mkBooking userId storageId userName s boxes
          amount storageType order duration now1 now2)]
    ∧ (createBooking gateway db userId storageId boxes amount storageType duration
        userName receipt freshId now1 now2).1.storages = db.storages
    ∧ (createBooking gateway db userId storageId boxes amount storageType duration
        userName receipt freshId now1 now2).2 = .ok (order.id, freshId) := by
  simp only [createRazorpayOrder] at hg
  simp [createBooking, createRazorpayOrder, hg, hs, addBookingToFirebase]

/-- C1: `verifyBooking` on an existing booking succeeds exactly when the
hex HMAC-SHA256 digest of the message `orderId ++ "|" ++ paymentId` under
the server-held secret equals the caller-supplied signature; on every
other signature it fails with the PaymentVerificationFailed error
`{status: 402, message: "Payment verification failed"}`. -/
theorem verifyBooking_succeeds_iff_signature_matches
    (hmacHex : String → String → String) (secret : String) (db : DB)
    (pid oid sig bid : String) (now : Int) (b : Booking)
    (hb : getBookingDocument db bid = some b) :
    ((verifyBooking hmacHex secret db pid oid sig bid now).2
        = .ok "Payment successful" ↔ hmacHex secret (oid ++ "|" ++ pid) = sig)
    ∧ (hmacHex secret (oid ++ "|" ++ pid) ≠ sig →
        (verifyBooking hmacHex secret db pid oid sig bid now).2
          = .error (.httpError 402 "Payment verification failed")) := by
  by_cases h : hmacHex secret (oid ++ "|" ++ pid) = sig <;>
    simp [verifyBooking, validateBooking, hb, verifyPayment, getPaymentOrderId, h]

/-- Witness for C1 at a concrete store, secret and matching signature. -/
theorem verifyBooking_succeeds_iff_signature_matches_witness :
    getBookingDocument sampleDB "bk1" = some sampleBooking ∧
    ((verifyBooking sampleHmac "s3cr3t" sampleDB "pay_123" "order_abc"
        (sampleHmac "s3cr3t" "order_abc|pay_123") "bk1" 5).2
      = .ok "Payment successful"
        ↔ sampleHmac "s3cr3t" ("order_abc" ++ "|" ++ "pay_123")
            = sampleHmac "s3cr3t" "order_abc|pay_123") :=
  ⟨by decide,
    (verifyBooking_succeeds_iff_signature_matches sampleHmac "s3cr3t" sampleDB
      "pay_123" "order_abc" (sampleHmac "s3cr3t" "order_abc|pay_123") "bk1" 5
      sampleBooking (by decide)).1⟩

/-- C2: along any step of the flow, a booking that is paid afterwards was
either already paid before, or the step was a `verifyBooking` call on that
booking whose signature verification succeeded.  In particular a
`createBooking` step never yields a newly paid booking (bookings are
created with `paid = false`), and a failed verification never sets
`paid`. -/
theorem booking_paid_transition_invariant
    (hmacHex : String → String → String) (secret : String)
    (gateway : OrderRequest → Except JsError Order) (ev : Ev) (db dbNext : DB)
    (hstep : Step hmacHex secret gateway ev db dbNext)
    (id : String) (bNext : Booking)
    (hlook : dbNext.bookings.lookup id = some bNext)
    (hpaid : bNext.paid = true) :
    (∃ b0, db.bookings.lookup id = some b0 ∧ b0.paid = true)
    ∨ (∃ pid oid sig now, ev = .verifyEv pid oid sig id now
        ∧ hmacHex secret (getPaymentOrderId oid pid) = sig) := by
  cases hstep with
  | createStep userId storageId boxes amount storageType duration userName receipt freshId now1 now2 db =>
    left
    cases hgw : createRazorpayOrder gateway amount receipt with
    | error e =>
      have hstate : (createBooking gateway db userId storageId boxes amount
          storageType duration userName receipt freshId now1 now2).1 = db := by
        simp only [createRazorpayOrder] at hgw
        simp [createBooking, createRazorpayOrder, hgw]
      rw [hstate] at hlook
      exact ⟨bNext, hlook, hpaid⟩
    | ok order =>
      cases hs : getStorageInfo db storageId with
      | none =>
        have hstate : (createBooking gateway db userId storageId boxes amount
            storageType duration userName receipt freshId now1 now2).1 = db := by
          simp only [createRazorpayOrder] at hgw
          simp [createBooking, createRazorpayOrder, hgw, hs, addBookingToFirebase]
        rw [hstate] at hlook
        exact ⟨bNext, hlook, hpaid⟩
      | some s =>
        rw [(createBooking_ok_state gateway db userId storageId boxes amount
          storageType duration userName receipt freshId now1 now2 s order hs
          hgw).1, lookup_append] at hlook
        cases hdb : db.bookings.lookup id with
        | some b0 =>
          rw [hdb] at hlook
          simp at hlook
          exact ⟨b0, rfl, by rw [hlook]; exact hpaid⟩
        | none =>
          rw [hdb] at hlook
          simp at hlook
          by_cases hid : id = freshId
          · subst hid
            simp [List.lookup] at hlook
            rw [← hlook] at hpaid
            simp [mkBooking] at hpaid
          · have hbf : (id == freshId) = false := beq_eq_false_iff_ne.mpr hid
            simp [List.lookup, hbf] at hlook
  | verifyStep pid oid sig bid now db =>
    cases hb : getBookingDocument db bid with
    | none =>
      have hstate : (verifyBooking hmacHex secret db pid oid sig bid now).1 = db := by
        simp [verifyBooking, validateBooking, hb]
      rw [hstate] at hlook
      exact Or.inl ⟨bNext, hlook, hpaid⟩
    | some b =>
      by_cases hsig : hmacHex secret (getPaymentOrderId oid pid) = sig
      · by_cases hid : id = bid
        · subst hid
          exact Or.inr ⟨pid, oid, sig, now, rfl, hsig⟩
        · left
          rw [verifyBooking_ok_state hmacHex secret db pid oid sig bid now b hb
            hsig] at hlook
          simp only [updateBookingPaymentStatus] at hlook
          rw [lookup_updateDoc] at hlook
          simp [hid] at hlook
          exact ⟨bNext, hlook, hpaid⟩
      · left
        have hstate : (verifyBooking hmacHex secret db pid oid sig bid now).1 = db := by
          simp [verifyBooking, validateBooking, hb, verifyPayment, hsig]
        rw [hstate] at hlook
        exact ⟨bNext, hlook, hpaid⟩

/-- Witness for C2 on a concrete successful verification step. -/
theorem booking_paid_transition_invariant_witness :
    (∃ b0, sampleDB.bookings.lookup "bk1" = some b0 ∧ b0.paid = true)
    ∨ (∃ pid oid sig now,
        Ev.verifyEv "pay_123" "order_abc"
            (sampleHmac "s3cr3t" (getPaymentOrderId "order_abc" "pay_123")) "bk1" 5
          = Ev.verifyEv pid oid sig "bk1" now
        ∧ sampleHmac "s3cr3t" (getPaymentOrderId oid pid) = sig) :=
  booking_paid_transition_invariant sampleHmac "s3cr3t" sampleGateway
    (Ev.verifyEv "pay_123" "order_abc"
      (sampleHmac "s3cr3t" (getPaymentOrderId "order_abc" "pay_123")) "bk1" 5)
    sampleDB
    (verifyBooking sampleHmac "s3cr3t" sampleDB "pay_123" "order_abc"
      (sampleHmac "s3cr3t" (getPaymentOrderId "order_abc" "pay_123")) "bk1" 5).1
    (Step.verifyStep "pay_123" "order_abc"
      (sampleHmac "s3cr3t" (getPaymentOrderId "order_abc" "pay_123")) "bk1" 5 sampleDB)
    "bk1" { sampleBooking with paid := true, paidAt := some 5 }
    (by decide) (by decide)

/-- C3: `verifyBooking` never compares the caller-supplied orderId with
the orderId stored on the booking: for every existing booking and every
(orderId, paymentId, signature) triple whose HMAC-SHA256 signature is
valid, the call succeeds and marks the booking paid — the hypotheses place
no constraint relating `oid` to `b.orderId`. -/
theorem verifyBooking_ignores_stored_orderId
    (hmacHex : String → String → String) (secret : String) (db : DB)
    (pid oid sig bid : String) (now : Int) (b : Booking)
    (hb : getBookingDocument db bid = some b)
    (hsig : hmacHex secret (getPaymentOrderId oid pid) = sig) :
    (verifyBooking hmacHex secret db pid oid sig bid now).2 = .ok "Payment successful"
    ∧ (verifyBooking hmacHex secret db pid oid sig bid now).1.bookings.lookup bid
        = some { b with paid := true, paidAt := some now } := by
  rw [verifyBooking_ok_state hmacHex secret db pid oid sig bid now b hb hsig]
  exact ⟨rfl, lookup_updateBookingPaymentStatus db bid now b hb⟩

/-- Witness for C3: the supplied orderId differs from the one stored on
the booking, yet verification succeeds and the booking is marked paid. -/
theorem verifyBooking_ignores_stored_orderId_witness :
    sampleBooking.orderId ≠ "order_OTHER" ∧
    getBookingDocument sampleDB "bk1" = some sampleBooking ∧
    (verifyBooking sampleHmac "s3cr3t" sampleDB "pay_123" "order_OTHER"
        (sampleHmac "s3cr3t" (getPaymentOrderId "order_OTHER" "pay_123"))
        "bk1" 9).2 = .ok "Payment successful" :=
  ⟨by decide, by decide,
    (verifyBooking_ignores_stored_orderId sampleHmac "s3cr3t" sampleDB "pay_123"
      "order_OTHER" (sampleHmac "s3cr3t" (getPaymentOrderId "order_OTHER" "pay_123"))
      "bk1" 9 sampleBooking (by decide) rfl).1⟩

/-- C4: `verifyBooking` on a bookingId that denotes no existing booking
fails with the NotFound error `{status: 402, message: "Order not found,
please try again"}` and leaves the store unchanged, for every paymentId,
orderId and signature — the signature is never examined. -/
theorem verifyBooking_missing_booking_notFound
    (hmacHex : String → String → String) (secret : String) (db : DB)
    (pid oid sig bid : String) (now : Int)
    (hb : getBookingDocument db bid = none) :
    verifyBooking hmacHex secret db pid oid sig bid now
      = (db, .error (.httpError 402 "Order not found, please try again")) := by
  simp [verifyBooking, validateBooking, hb]

/-- Witness for C4: a missing bookingId fails with NotFound even though
the supplied signature is the valid one for the order and payment ids. -/
theorem verifyBooking_missing_booking_notFound_witness :
    getBookingDocument sampleDB "bk404" = none ∧
    verifyBooking sampleHmac "s3cr3t" sampleDB "pay_123" "order_abc"
        (sampleHmac "s3cr3t" (getPaymentOrderId "order_abc" "pay_123")) "bk404" 5
      = (sampleDB, .error (.httpError 402 "Order not found, please try again")) :=
  ⟨by decide,
    verifyBooking_missing_booking_notFound sampleHmac "s3cr3t" sampleDB
      "pay_123" "order_abc"
      (sampleHmac "s3cr3t" (getPaymentOrderId "order_abc" "pay_123")) "bk404" 5
      (by decide)⟩

/-- C5: if the payment-gateway order-creation call fails during
`createBooking`, the store is unchanged (no booking is persisted) and the
gateway error propagates to the caller. -/
theorem createBooking_gateway_failure_no_booking
    (gateway : OrderRequest → Except JsError Order) (db : DB)
    (userId storageId : String) (boxes amount : Int) (storageType : String)
    (duration : Int) (userName receipt freshId : String) (now1 now2 : Int)
    (e : JsError)
    (hg : createRazorpayOrder gateway amount receipt = .error e) :
    createBooking gateway db userId storageId boxes amount storageType duration
        userName receipt freshId now1 now2 = (db, .error e) := by
  simp only [createRazorpayOrder] at hg
  simp [createBooking, createRazorpayOrder, hg]

/-- Witness for C5 with a concrete failing gateway. -/
theorem createBooking_gateway_failure_no_booking_witness :
    createRazorpayOrder failingGateway 500 "rcpt" = .error (.gatewayError "gateway down")
    ∧ createBooking failingGateway sampleDB "u1" "st1" 2 500 "cold" 4 "Asha"
        "rcpt" "bk2" 0 0 = (sampleDB, .error (.gatewayError "gateway down")) :=
  ⟨rfl,
    createBooking_gateway_failure_no_booking failingGateway sampleDB "u1" "st1"
      2 500 "cold" 4 "Asha" "rcpt" "bk2" 0 0 (.gatewayError "gateway down") rfl⟩

/-- C6 counterexample: for caller-supplied amount 5, the order amount the
gateway receives is the string "500", not the caller-supplied amount 5 —
the code multiplies by 100 before sending, so the caller-supplied value is
not itself forwarded as the minor-unit order amount. -/
theorem createRazorpayOrder_amount_counterexample :
    createRazorpayOrder echoAmountGateway 5 "rcpt" = .error (.gatewayError "500")
    ∧ toString (5 : Int) ≠ "500" :=
  ⟨rfl, by decide⟩

/-- C6 amended: `createBooking` passes the caller-supplied amount
multiplied by 100 (major units converted to minor currency units),
serialized as a decimal string, as the order amount; the full request the
gateway sees is exactly that amount together with currency "INR" and the
receipt token, so the converted amount is the sole amount parameter. -/
theorem createBooking_sends_amount_times_100
    (db : DB) (userId storageId : String) (boxes amount : Int)
    (storageType : String) (duration : Int) (userName receipt freshId : String)
    (now1 now2 : Int) :
    (createBooking echoAmountGateway db userId storageId boxes amount
        storageType duration userName receipt freshId now1 now2).2
      = .error (.gatewayError (toString (amount * 100)))
    ∧ createRazorpayOrder echoRequestGateway amount receipt
      = .error (.gatewayError (toString (amount * 100) ++ "|" ++ "INR" ++ "|" ++ receipt)) :=
  ⟨rfl, rfl⟩

/-- C7 counterexample: with amount 5000 > 0 and duration 1 week, when the
millisecond clock advances from 0 to 1 between the two `new Date()` reads,
the persisted booking has `toDate - fromDate = 604800001`, which is not
exactly 1 × 7 days = 604800000 milliseconds. -/
theorem createBooking_duration_exact_counterexample :
    (createBooking sampleGateway sampleDB "u1" "st1" 2 5000 "cold" 1 "Asha"
        "rcpt" "bk2" 0 1).1.bookings.lookup "bk2"
      = some (mkBooking "u1" "st1" "Asha" sampleStorage 2 5000 "cold"
          (Order.mk "order_new") 1 0 1)
    ∧ (mkBooking "u1" "st1" "Asha" sampleStorage 2 5000 "cold"
          (Order.mk "order_new") 1 0 1).toDate
        - (mkBooking "u1" "st1" "Asha" sampleStorage 2 5000 "cold"
          (Order.mk "order_new") 1 0 1).fromDate = 604800001
    ∧ (604800001 : Int) ≠ 1 * 7 * 24 * 60 * 60 * 1000
    ∧ (0 : Int) < 5000 :=
  ⟨by decide, by decide, by decide, by decide⟩

/-- C7 amended: for every amount A > 0 and duration D weeks,
`createBooking` persists a booking with `paid = false` whose
`toDate - fromDate` equals D×7 days plus the clock advance between the two
`new Date()` reads; it equals D×7 days exactly when the clock does not
advance between them. -/
theorem createBooking_duration_and_unpaid
    (gateway : OrderRequest → Except JsError Order) (db : DB)
    (userId storageId : String) (boxes amount : Int) (storageType : String)
    (duration : Int) (userName receipt freshId : String) (now1 now2 : Int)
    (s : StorageData) (order : Order)
    (hamount : 0 < amount)
    (hs : getStorageInfo db storageId = some s)
    (hg : createRazorpayOrder gateway amount receipt = .ok order) :
    (createBooking gateway db userId storageId boxes amount storageType duration
        userName receipt freshId now1 now2).1.bookings
      = db.bookings ++ [(freshId, mkBooking userId storageId userName s boxes
          amount storageType order duration now1 now2)]
    ∧ (mkBooking userId storageId userName s boxes amount storageType order
        duration now1 now2).paid = false
    ∧ (mkBooking userId storageId userName s boxes amount storageType order
          duration now1 now2).toDate
        - (mkBooking userId storageId userName s boxes amount storageType order
          duration now1 now2).fromDate
      = (now2 - now1) + duration * 7 * 24 * 60 * 60 * 1000
    ∧ (now2 = now1 →
        (mkBooking userId storageId userName s boxes amount storageType order
            duration now1 now2).toDate
          - (mkBooking userId storageId userName s boxes amount storageType order
            duration now1 now2).fromDate
        = duration * 7 * 24 * 60 * 60 * 1000) := by
  refine ⟨(createBooking_ok_state gateway db userId storageId boxes amount
    storageType duration userName receipt freshId now1 now2 s order hs hg).1,
    rfl, ?_, ?_⟩
  · simp [mkBooking]
    ring
  · intro h
    subst h
    simp [mkBooking]

/-- Witness for C7 (amended) with the clock standing still between the
two reads. -/
theorem createBooking_duration_and_unpaid_witness :
    (createBooking sampleGateway sampleDB "u1" "st1" 2 5000 "cold" 4 "Asha"
        "rcpt" "bk2" 4 4).1.bookings
      = sampleDB.bookings ++ [("bk2", mkBooking "u1" "st1" "Asha" sampleStorage
          2 5000 "cold" (Order.mk "order_new") 4 4 4)]
    ∧ (mkBooking "u1" "st1" "Asha" sampleStorage 2 5000 "cold"
        (Order.mk "order_new") 4 4 4).paid = false
    ∧ (mkBooking "u1" "st1" "Asha" sampleStorage 2 5000 "cold"
          (Order.mk "order_new") 4 4 4).toDate
        - (mkBooking "u1" "st1" "Asha" sampleStorage 2 5000 "cold"
          (Order.mk "order_new") 4 4 4).fromDate
      = 4 * 7 * 24 * 60 * 60 * 1000 :=
  ⟨(createBooking_duration_and_unpaid sampleGateway sampleDB "u1" "st1" 2 5000
      "cold" 4 "Asha" "rcpt" "bk2" 4 4 sampleStorage (Order.mk "order_new")
      (by decide) (by decide) rfl).1,
    (createBooking_duration_and_unpaid sampleGateway sampleDB "u1" "st1" 2 5000
      "cold" 4 "Asha" "rcpt" "bk2" 4 4 sampleStorage (Order.mk "order_new")
      (by decide) (by decide) rfl).2.1,
    (createBooking_duration_and_unpaid sampleGateway sampleDB "u1" "st1" 2 5000
      "cold" 4 "Asha" "rcpt" "bk2" 4 4 sampleStorage (Order.mk "order_new")
      (by decide) (by decide) rfl).2.2.2 rfl⟩

/-- C8 counterexample: when the requested storage facility does not
exist, `createBooking` persists no booking but fails with a `TypeError`
(from `storage.data().name` on a non-existent snapshot), not with the
NotFound error claimed. -/
theorem createBooking_missing_storage_counterexample :
    createBooking sampleGateway emptyDB "u1" "stX" 2 5000 "cold" 1 "Asha"
        "rcpt" "bk9" 0 0
      = (emptyDB, .error (.typeError "Cannot read properties of undefined"))
    ∧ JsError.typeError "Cannot read properties of undefined"
      ≠ JsError.httpError 402 "Order not found, please try again" :=
  ⟨rfl, by decide⟩

/-- C8 amended: if the requested storage facility does not exist and the
gateway accepts the order, `createBooking` fails — with a `TypeError`
raised while reading fields of the missing facility document, not with
NotFound — and persists no booking (the store is unchanged; the gateway
order, however, has already been created). -/
theorem createBooking_missing_storage_typeError
    (gateway : OrderRequest → Except JsError Order) (db : DB)
    (userId storageId : String) (boxes amount : Int) (storageType : String)
    (duration : Int) (userName receipt freshId : String) (now1 now2 : Int)
    (order : Order)
    (hs : getStorageInfo db storageId = none)
    (hg : createRazorpayOrder gateway amount receipt = .ok order) :
    createBooking gateway db userId storageId boxes amount storageType duration
        userName receipt freshId now1 now2
      = (db, .error (.typeError "Cannot read properties of undefined")) := by
  simp only [createRazorpayOrder] at hg
  simp [createBooking, createRazorpayOrder, hg, hs, addBookingToFirebase]

/-- Witness for C8 (amended) on the empty store. -/
theorem createBooking_missing_storage_typeError_witness :
    getStorageInfo emptyDB "stX" = none
    ∧ createBooking sampleGateway emptyDB "u1" "stX" 2 500 "cold" 4 "Asha"
        "rcpt" "bk9" 3 3
      = (emptyDB, .error (.typeError "Cannot read properties of undefined")) :=
  ⟨rfl,
    createBooking_missing_storage_typeError sampleGateway emptyDB "u1" "stX" 2
      500 "cold" 4 "Asha" "rcpt" "bk9" 3 3 (Order.mk "order_new") rfl rfl⟩

/-- C9: calling `verifyBooking` twice in sequence on the same existing
booking with a correct signature succeeds both times; after each call the
stored booking is the original record with `paid := true` and only
`paidAt` carrying that call's timestamp, so no field other than `paidAt`
changes on the second call. -/
theorem verifyBooking_twice_idempotent
    (hmacHex : String → String → String) (secret : String) (db : DB)
    (pid oid sig bid : String) (now1 now2 : Int) (b : Booking)
    (hb : getBookingDocument db bid = some b)
    (hsig : hmacHex secret (getPaymentOrderId oid pid) = sig) :
    (verifyBooking hmacHex secret db pid oid sig bid now1).2 = .ok "Payment successful"
    ∧ (verifyBooking hmacHex secret
        (verifyBooking hmacHex secret db pid oid sig bid now1).1
        pid oid sig bid now2).2 = .ok "Payment successful"
    ∧ (verifyBooking hmacHex secret db pid oid sig bid now1).1.bookings.lookup bid
        = some { b with paid := true, paidAt := some now1 }
    ∧ (verifyBooking hmacHex secret
        (verifyBooking hmacHex secret db pid oid sig bid now1).1
        pid oid sig bid now2).1.bookings.lookup bid
        = some { b with paid := true, paidAt := some now2 } := by
  have h1 := verifyBooking_ok_state hmacHex secret db pid oid sig bid now1 b hb hsig
  have hb1 : getBookingDocument (updateBookingPaymentStatus db bid now1) bid
      = some { b with paid := true, paidAt := some now1 } :=
    lookup_updateBookingPaymentStatus db bid now1 b hb
  have h2 := verifyBooking_ok_state hmacHex secret
    (updateBookingPaymentStatus db bid now1) pid oid sig bid now2
    { b with paid := true, paidAt := some now1 } hb1 hsig
  have hl2 : (updateBookingPaymentStatus (updateBookingPaymentStatus db bid now1)
        bid now2).bookings.lookup bid
      = some { b with paid := true, paidAt := some now2 } :=
    lookup_updateBookingPaymentStatus (updateBookingPaymentStatus db bid now1)
      bid now2 { b with paid := true, paidAt := some now1 } hb1
  have hl1 := lookup_updateBookingPaymentStatus db bid now1 b hb
  simp [h1, h2, hl1, hl2]

/-- Witness for C9 at a concrete store and matching signature. -/
theorem verifyBooking_twice_idempotent_witness :
    getBookingDocument sampleDB "bk1" = some sampleBooking ∧
    (verifyBooking sampleHmac "s3cr3t"
        (verifyBooking sampleHmac "s3cr3t" sampleDB "pay_123" "order_abc"
          (sampleHmac "s3cr3t" (getPaymentOrderId "order_abc" "pay_123")) "bk1" 5).1
        "pay_123" "order_abc"
        (sampleHmac "s3cr3t" (getPaymentOrderId "order_abc" "pay_123")) "bk1" 8).1.bookings.lookup "bk1"
      = some { sampleBooking with paid := true, paidAt := some 8 } :=
  ⟨by decide,
    (verifyBooking_twice_idempotent sampleHmac "s3cr3t" sampleDB "pay_123"
      "order_abc" (sampleHmac "s3cr3t" (getPaymentOrderId "order_abc" "pay_123"))
      "bk1" 5 8 sampleBooking (by decide) rfl).2.2.2⟩

/-- C10: the persisted booking's `image` field is the first element of
the facility's `images` array when that array is present (`images[0]`,
which for a present-but-empty array is JS `undefined`, modelled as
`List.head?`), and the empty string when the facility has no `images`
field. -/
theorem createBooking_image_field
    (gateway : OrderRequest → Except JsError Order) (db : DB)
    (userId storageId : String) (boxes amount : Int) (storageType : String)
    (duration : Int) (userName receipt freshId : String) (now1 now2 : Int)
    (s : StorageData) (order : Order) (x : String) (xs : List String)
    (hs : getStorageInfo db storageId = some s)
    (hg : createRazorpayOrder gateway amount receipt = .ok order) :
    (createBooking gateway db userId storageId boxes amount storageType duration
        userName receipt freshId now1 now2).1.bookings
      = db.bookings ++ [(freshId, mkBooking userId storageId userName s boxes
          amount storageType order duration now1 now2)]
    ∧ (s.images = some (x :: xs) →
        (mkBooking userId storageId userName s boxes amount storageType order
          duration now1 now2).image = some x)
    ∧ (s.images = none →
        (mkBooking userId storageId userName s boxes amount storageType order
          duration now1 now2).image = some "") := by
  refine ⟨(createBooking_ok_state gateway db userId storageId boxes amount
    storageType duration userName receipt freshId now1 now2 s order hs hg).1,
    ?_, ?_⟩
  · intro h
    simp [mkBooking, h]
  · intro h
    simp [mkBooking, h]

/-- Witness for C10: the sample facility has a non-empty `images` array
and its first element is copied into the booking. -/
theorem createBooking_image_field_witness :
    getStorageInfo sampleDB "st1" = some sampleStorage
    ∧ sampleStorage.images = some ("img0.png" :: ["img1.png"])
    ∧ (mkBooking "u1" "st1" "Asha" sampleStorage 2 500 "cold"
        (Order.mk "order_new") 4 0 0).image = some "img0.png" :=
  ⟨by decide, by decide,
    (createBooking_image_field sampleGateway sampleDB "u1" "st1" 2 500 "cold" 4
      "Asha" "rcpt" "bk2" 0 0 sampleStorage (Order.mk "order_new") "img0.png"
      ["img1.png"] (by decide) rfl).2.1 (by decide)⟩
